import Mathlib

/-!
Shallow embedding of `source_elasticsearch/source.py` (the Airbyte
Elasticsearch source connector) and proofs about its specification.

The connector has three operations on a remote Elasticsearch engine:
`check` (ping), `discover` (list indices and infer JSON schemas from the
field mappings) and `read` (scroll through an index, yielding one record
message per document).

Modelling choices, each taken directly from the source:
* The remote engine is a value of type `Elasticsearch`: a ping outcome and
  an association list from index name to its mapping properties and its
  stored documents.  `es.indices.get("*")`, `es.indices.get_mapping`,
  `es.search` and `es.scroll` read from this value.
* Python dict/keyword access that can raise `KeyError` (`config["host"]`,
  `config["username"]`, `config["password"]`, `config["page_size"]`) is
  modelled by `Option` fields; a missing key is the propagating exception
  `PyError.KeyError`, and `raise UnsupportedDataTypeException(...)` is
  `PyError.UnsupportedDataTypeException`.  Fallible operations return
  `Except PyError _`.
* Wall-clock time: `clock : Nat → Nat` gives the epoch time in
  milliseconds at the k-th call of `datetime.now()`; the code computes
  `int(datetime.now().timestamp()) * 1000`, i.e. `clock k / 1000 * 1000`
  (truncation of the fractional seconds, then scaling to milliseconds).
* The scroll cursor (`scroll_id`) is the server-side cursor state: the
  offset of the next page and the page size; `es.search` serves the first
  `page_size` documents, `es.scroll` serves the next page and advances the
  cursor, so the generator's `while hits:` loop ends on the first empty
  page.
* Generators are modelled as the list of messages they yield.
-/

namespace SourceElasticsearch

/-- Document bodies are opaque JSON values; modelled as strings. -/
abbrev DocData := String

/-- One search hit; `_source` is the document body (`hit["_source"]`). -/
structure Hit where
  _source : DocData
deriving DecidableEq

/-- `Type.RECORD` from the airbyte protocol (only records are emitted). -/
inductive MsgType where
  | RECORD
deriving DecidableEq

/-- `AirbyteRecordMessage(stream=..., data=..., emitted_at=...)`. -/
structure AirbyteRecordMessage where
  stream : String
  data : DocData
  emitted_at : Nat
deriving DecidableEq

/-- `AirbyteMessage(type=Type.RECORD, record=...)`. -/
structure AirbyteMessage where
  type : MsgType
  record : AirbyteRecordMessage
deriving DecidableEq

/-- One field entry of a discovered json schema: `{"type": t}`. -/
structure FieldSchema where
  type : String
deriving DecidableEq

/-- The json_schema dict built in `discover`:
`{"$schema": ..., "type": "object", "properties": ...}`. -/
structure JsonSchema where
  schema_id : String
  type : String
  properties : List (String × FieldSchema)
deriving DecidableEq

/-- `AirbyteStream(name=..., json_schema=..., supported_sync_modes=...)`. -/
structure AirbyteStream where
  name : String
  json_schema : JsonSchema
  supported_sync_modes : List String
deriving DecidableEq

/-- `AirbyteCatalog(streams=...)`. -/
structure AirbyteCatalog where
  streams : List AirbyteStream
deriving DecidableEq

/-- A configured stream of a `ConfiguredAirbyteCatalog` (only the wrapped
stream is consulted by `read`, through `configured_stream.stream.name`). -/
structure ConfiguredAirbyteStream where
  stream : AirbyteStream
deriving DecidableEq

/-- `ConfiguredAirbyteCatalog(streams=...)`. -/
structure ConfiguredAirbyteCatalog where
  streams : List ConfiguredAirbyteStream
deriving DecidableEq

/-- Check status values. -/
inductive Status where
  | SUCCEEDED
  | FAILED
deriving DecidableEq

/-- `AirbyteConnectionStatus(status=..., message=...)`. -/
structure AirbyteConnectionStatus where
  status : Status
  message : Option String
deriving DecidableEq

/-- The attributes dict of one field of an index mapping.
`has_properties` models `"properties" in property_attributes` (a nested
object); `type` models `property_attributes["type"]`. -/
structure PropAttrs where
  has_properties : Bool
  type : String
deriving DecidableEq

/-- Remote state of one index: its mapping properties
(`get_mapping(index)[index]["mappings"]["properties"]`, in the iteration
order of the dict) and its stored documents (in server return order). -/
structure ESIndexData where
  props : List (String × PropAttrs)
  docs : List Hit
deriving DecidableEq

/-- The remote engine as seen through the client library: the outcome of
`ping()` and the indices with their mappings and documents. -/
structure Elasticsearch where
  ping : Bool
  indices : List (String × ESIndexData)
deriving DecidableEq

/-- The source configuration; each field is `Option` because the code
accesses `config[key]` without checking presence (missing key = KeyError). -/
structure Config where
  host : Option String
  username : Option String
  password : Option String
  page_size : Option Nat
deriving DecidableEq

/-- Python exceptions that escape the connector's methods. -/
inductive PyError where
  | KeyError (key : String)
  | UnsupportedDataTypeException (msg : String)
deriving DecidableEq

/-- `SourceElasticsearch.system_indices` (source lines 30-33). -/
def system_indices : List String := [".kibana_1", ".opendistro_security"]

/-- `SourceElasticsearch.es_to_json_type_mapping` (source lines 35-52). -/
def es_to_json_type_mapping : List (String × String) :=
  [("boolean", "boolean"),
   ("text", "string"),
   ("date", "string"),
   ("date_nanos", "string"),
   ("long", "integer"),
   ("unsigned_long", "integer"),
   ("integer", "integer"),
   ("short", "integer"),
   ("byte", "integer"),
   ("double", "number"),
   ("float", "number"),
   ("half_float", "number"),
   ("scaled_float", "number")]

/-- `_get_es_client` (source lines 54-63): reads `config["host"]`,
`config["username"]`, `config["password"]` in that order (a missing key
raises `KeyError`) and returns the client, modelled as the engine itself. -/
def _get_es_client (es : Elasticsearch) (config : Config) :
    Except PyError Elasticsearch :=
  match config.host with
  | none => Except.error (PyError.KeyError "host")
  | some _ =>
    match config.username with
    | none => Except.error (PyError.KeyError "username")
    | some _ =>
      match config.password with
      | none => Except.error (PyError.KeyError "password")
      | some _ => Except.ok es

/-- `check` (source lines 65-79): build a client, ping it; `FAILED` with
message "Connection failed" when the ping returns false, else `SUCCEEDED`.
There is no exception handler, so a `_get_es_client` error propagates. -/
def check (es : Elasticsearch) (config : Config) :
    Except PyError AirbyteConnectionStatus :=
  match _get_es_client es config with
  | Except.error e => Except.error e
  | Except.ok client =>
    if !client.ping then
      Except.ok ⟨Status.FAILED, some "Connection failed"⟩
    else
      Except.ok ⟨Status.SUCCEEDED, none⟩

/-- `_get_indices` (source lines 111-117): all indices of the engine whose
name is not in `system_indices`. -/
def _get_indices (es : Elasticsearch) : List (String × ESIndexData) :=
  es.indices.filter (fun kv => !(system_indices.contains kv.1))

/-- `es.indices.get_mapping(index=index)[index]["mappings"]["properties"]`:
the mapping properties stored for the index (the code only calls this on
names of existing indices; a missing index is modelled as no properties). -/
def get_mapping_properties (es : Elasticsearch) (index : String) :
    List (String × PropAttrs) :=
  match es.indices.lookup index with
  | some d => d.props
  | none => []

/-- The `for property_name, property_attributes in es_properties.items()`
loop of `_get_index_json_properties` (source lines 126-138): skip fields
with a nested `properties` key; otherwise translate the field's type
through `es_to_json_type_mapping`, raising `UnsupportedDataTypeException`
when it has no entry. -/
def json_properties_loop :
    List (String × PropAttrs) → Except PyError (List (String × FieldSchema))
  | [] => Except.ok []
  | (property_name, property_attributes) :: rest =>
    if property_attributes.has_properties then
      json_properties_loop rest
    else
      match es_to_json_type_mapping.lookup property_attributes.type with
      | none =>
        Except.error (PyError.UnsupportedDataTypeException
          ("Unsupported data type: " ++ property_attributes.type))
      | some json_type =>
        match json_properties_loop rest with
        | Except.error e => Except.error e
        | Except.ok props => Except.ok ((property_name, ⟨json_type⟩) :: props)

/-- `_get_index_json_properties` (source lines 119-138). -/
def _get_index_json_properties (es : Elasticsearch) (index : String) :
    Except PyError (List (String × FieldSchema)) :=
  json_properties_loop (get_mapping_properties es index)

/-- The `for index_name in indices.keys()` loop of `discover` (source
lines 99-108): build one `AirbyteStream` per index; an
`UnsupportedDataTypeException` from any index aborts the whole loop with
no catalog at all. -/
def discover_loop (es : Elasticsearch) :
    List (String × ESIndexData) → Except PyError (List AirbyteStream)
  | [] => Except.ok []
  | (index_name, _) :: rest =>
    match _get_index_json_properties es index_name with
    | Except.error e => Except.error e
    | Except.ok props =>
      match discover_loop es rest with
      | Except.error e => Except.error e
      | Except.ok streams =>
        Except.ok
          ({ name := index_name,
             json_schema :=
               { schema_id := "http://json-schema.org/draft-07/schema#",
                 type := "object",
                 properties := props },
             supported_sync_modes := ["full_refresh"] } :: streams)

/-- `discover` (source lines 81-109). -/
def discover (es : Elasticsearch) (config : Config) :
    Except PyError AirbyteCatalog :=
  match _get_es_client es config with
  | Except.error e => Except.error e
  | Except.ok client =>
    match discover_loop client (_get_indices client) with
    | Except.error e => Except.error e
    | Except.ok streams => Except.ok ⟨streams⟩

/-- The documents the server serves for a search on `index` (the code only
searches indices named in the configured catalog; an unknown index is
modelled as empty). -/
def docs_of (es : Elasticsearch) (index : String) : List Hit :=
  match es.indices.lookup index with
  | some d => d.docs
  | none => []

/-- The server-side scroll cursor behind an opaque `_scroll_id` token:
the offset of the next page and the page size of the scroll context. -/
structure ScrollCursor where
  offset : Nat
  size : Nat
deriving DecidableEq

/-- `es.search(index=..., body=match_all, size=page_size, scroll="1m")`:
first page of hits plus the scroll cursor positioned after it. -/
def es_search (docs : List Hit) (page_size : Nat) :
    ScrollCursor × List Hit :=
  (⟨page_size, page_size⟩, docs.take page_size)

/-- `es.scroll(scroll_id=..., scroll="1m")`: the page at the cursor's
offset plus the advanced cursor. -/
def es_scroll (docs : List Hit) (scroll_id : ScrollCursor) :
    ScrollCursor × List Hit :=
  (⟨scroll_id.offset + scroll_id.size, scroll_id.size⟩,
   (docs.drop scroll_id.offset).take scroll_id.size)

/-- The `for hit in hits:` loop body (source lines 183-187): one RECORD
message per hit, with the collection name as stream, the hit's `_source`
as data, and `int(datetime.now().timestamp()) * 1000` as `emitted_at`
(`clock k` is the k-th `now()` reading, in epoch milliseconds). -/
def yieldHits (index_name : String) (clock : Nat → Nat) (k : Nat) :
    List Hit → List AirbyteMessage
  | [] => []
  | hit :: rest =>
    ⟨MsgType.RECORD, ⟨index_name, hit._source, clock k / 1000 * 1000⟩⟩ ::
      yieldHits index_name clock (k + 1) rest

/-- The `while hits:` loop of `_scroll_through_index` (source lines
182-190): yield the current page, fetch the next page with `es.scroll`,
update the cursor, stop on an empty page.  `k` counts the `now()` readings
made so far. -/
def scrollWhile (index_name : String) (docs : List Hit) (clock : Nat → Nat)
    (k : Nat) (scroll_id : ScrollCursor) (hits : List Hit) :
    List AirbyteMessage :=
  if h : hits.isEmpty then []
  else
    yieldHits index_name clock k hits ++
      scrollWhile index_name docs clock (k + hits.length)
        (es_scroll docs scroll_id).1 (es_scroll docs scroll_id).2
termination_by (docs.length - scroll_id.offset) + min 1 hits.length
decreasing_by
  simp only [es_scroll]
  have h1 : hits.length ≠ 0 := by
    intro hlen
    exact h (List.isEmpty_iff_length_eq_zero.mpr hlen)
  have h4 : ((docs.drop scroll_id.offset).take scroll_id.size).length =
      min scroll_id.size (docs.length - scroll_id.offset) := by
    rw [List.length_take, List.length_drop]
  rw [h4]
  omega

/-- `_scroll_through_index` (source lines 169-190): initial search, then
the scroll loop. -/
def _scroll_through_index (es : Elasticsearch) (index_name : String)
    (page_size : Nat) (clock : Nat → Nat) : List AirbyteMessage :=
  scrollWhile index_name (docs_of es index_name) clock 0
    (es_search (docs_of es index_name) page_size).1
    (es_search (docs_of es index_name) page_size).2

/-- `read` (source lines 140-167): build a client, then
`for configured_stream in catalog.streams: return _scroll_through_index(...)`
— the loop body returns on its first iteration, so only the first
configured stream is consumed; with an empty catalog the loop body never
runs and the method returns `None` (here `Except.ok none`).  The `state`
argument is accepted and never used. -/
def read {σ : Type} (es : Elasticsearch) (config : Config)
    (catalog : ConfiguredAirbyteCatalog) (state : σ) (clock : Nat → Nat) :
    Except PyError (Option (List AirbyteMessage)) :=
  match _get_es_client es config with
  | Except.error e => Except.error e
  | Except.ok client =>
    match catalog.streams with
    | [] => Except.ok none
    | configured_stream :: _ =>
      match config.page_size with
      | none => Except.error (PyError.KeyError "page_size")
      | some page_size =>
        Except.ok (some (_scroll_through_index client
          configured_stream.stream.name page_size clock))

/-- The stream-protocol shape of a message: its stream tag and document
body, with the wall-clock dependent `emitted_at` projected away. -/
def recordShape (m : AirbyteMessage) : String × DocData :=
  (m.record.stream, m.record.data)

lemma scrollWhile_nil (index_name : String) (docs : List Hit)
    (clock : Nat → Nat) (k : Nat) (scroll_id : ScrollCursor) :
    scrollWhile index_name docs clock k scroll_id [] = [] := by
  rw [scrollWhile]
  simp

lemma yieldHits_append (index_name : String) (clock : Nat → Nat)
    (l1 l2 : List Hit) :
    ∀ k, yieldHits index_name clock k (l1 ++ l2) =
      yieldHits index_name clock k l1 ++
        yieldHits index_name clock (k + l1.length) l2 := by
  induction l1 with
  | nil => intro k; simp [yieldHits]
  | cons hd tl ih =>
    intro k
    simp only [List.cons_append, yieldHits, List.append_eq, ih (k + 1),
      List.length_cons]
    have e : k + 1 + tl.length = k + (tl.length + 1) := by omega
    rw [e]

lemma yieldHits_length (index_name : String) (clock : Nat → Nat) :
    ∀ k (l : List Hit),
      (yieldHits index_name clock k l).length = l.length := by
  intro k l
  induction l generalizing k with
  | nil => rfl
  | cons hd tl ih => simp [yieldHits, ih]

lemma yieldHits_stream (index_name : String) (clock : Nat → Nat) :
    ∀ k (l : List Hit) m, m ∈ yieldHits index_name clock k l →
      m.record.stream = index_name := by
  intro k l
  induction l generalizing k with
  | nil => intro m hm; simp [yieldHits] at hm
  | cons hd tl ih =>
    intro m hm
    simp only [yieldHits, List.mem_cons] at hm
    rcases hm with hm | hm
    · rw [hm]
    · exact ih (k + 1) m hm

lemma yieldHits_emitted (index_name : String) (clock : Nat → Nat) :
    ∀ k (l : List Hit) m, m ∈ yieldHits index_name clock k l →
      ∃ j, k ≤ j ∧ m.record.emitted_at = clock j / 1000 * 1000 := by
  intro k l
  induction l generalizing k with
  | nil => intro m hm; simp [yieldHits] at hm
  | cons hd tl ih =>
    intro m hm
    simp only [yieldHits, List.mem_cons] at hm
    rcases hm with hm | hm
    · exact ⟨k, le_refl k, by rw [hm]⟩
    · obtain ⟨j, hj, he⟩ := ih (k + 1) m hm
      exact ⟨j, by omega, he⟩

lemma yieldHits_shape (index_name : String) (clock : Nat → Nat) :
    ∀ k (l : List Hit),
      (yieldHits index_name clock k l).map recordShape =
        l.map (fun hit => (index_name, hit._source)) := by
  intro k l
  induction l generalizing k with
  | nil => rfl
  | cons hd tl ih => simp [yieldHits, recordShape, ih]

lemma scrollWhile_yields (index_name : String) (docs : List Hit)
    (clock : Nat → Nat) (P : Nat) (hP : 0 < P) :
    ∀ n j k, docs.length - j ≤ n →
      scrollWhile index_name docs clock k ⟨j + P, P⟩ ((docs.drop j).take P) =
        yieldHits index_name clock k (docs.drop j) := by
  intro n
  induction n with
  | zero =>
    intro j k hj
    have hdrop : docs.drop j = [] := by
      apply List.drop_eq_nil_of_le
      omega
    rw [hdrop]
    simp only [List.take_nil]
    rw [scrollWhile_nil]
    rfl
  | succ n ihn =>
    intro j k hj
    by_cases hje : docs.length ≤ j
    · have hdrop : docs.drop j = [] := List.drop_eq_nil_of_le hje
      rw [hdrop]
      simp only [List.take_nil]
      rw [scrollWhile_nil]
      rfl
    · have hlt : j < docs.length := by omega
      have hlen : ((docs.drop j).take P).length =
          min P (docs.length - j) := by
        rw [List.length_take, List.length_drop]
      have hne : ¬ ((docs.drop j).take P).isEmpty = true := by
        intro habs
        rw [List.isEmpty_iff_length_eq_zero, hlen] at habs
        omega
      rw [scrollWhile]
      rw [dif_neg hne]
      simp only [es_scroll]
      rw [ihn (j + P) (k + ((docs.drop j).take P).length) (by omega)]
      conv_rhs => rw [← List.take_append_drop P (docs.drop j)]
      rw [yieldHits_append]
      rw [List.drop_drop]

lemma scroll_through_index_eq (es : Elasticsearch) (index_name : String)
    (P : Nat) (clock : Nat → Nat) (hP : 0 < P) :
    _scroll_through_index es index_name P clock =
      yieldHits index_name clock 0 (docs_of es index_name) := by
  unfold _scroll_through_index
  simp only [es_search]
  have h0 : (docs_of es index_name).take P =
      ((docs_of es index_name).drop 0).take P := by rw [List.drop_zero]
  have h1 : (⟨P, P⟩ : ScrollCursor) = ⟨0 + P, P⟩ := by
    have : 0 + P = P := by omega
    rw [this]
  rw [h0, h1,
    scrollWhile_yields index_name (docs_of es index_name) clock P hP
      (docs_of es index_name).length 0 0 (by omega),
    List.drop_zero]

lemma scroll_through_index_zero (es : Elasticsearch) (index_name : String)
    (clock : Nat → Nat) :
    _scroll_through_index es index_name 0 clock = [] := by
  unfold _scroll_through_index
  simp only [es_search, List.take_zero]
  rw [scrollWhile_nil]

lemma scroll_stream (es : Elasticsearch) (index_name : String) (P : Nat)
    (clock : Nat → Nat) :
    ∀ m ∈ _scroll_through_index es index_name P clock,
      m.record.stream = index_name := by
  intro m hm
  rcases Nat.eq_zero_or_pos P with hP | hP
  · rw [hP, scroll_through_index_zero] at hm
    simp at hm
  · rw [scroll_through_index_eq es index_name P clock hP] at hm
    exact yieldHits_stream index_name clock 0 _ m hm

lemma scroll_emitted (es : Elasticsearch) (index_name : String) (P : Nat)
    (clock : Nat → Nat) :
    ∀ m ∈ _scroll_through_index es index_name P clock,
      ∃ j, m.record.emitted_at = clock j / 1000 * 1000 := by
  intro m hm
  rcases Nat.eq_zero_or_pos P with hP | hP
  · rw [hP, scroll_through_index_zero] at hm
    simp at hm
  · rw [scroll_through_index_eq es index_name P clock hP] at hm
    obtain ⟨j, _, he⟩ := yieldHits_emitted index_name clock 0 _ m hm
    exact ⟨j, he⟩

lemma scroll_shape (es : Elasticsearch) (index_name : String) (P : Nat)
    (c1 c2 : Nat → Nat) :
    (_scroll_through_index es index_name P c1).map recordShape =
      (_scroll_through_index es index_name P c2).map recordShape := by
  rcases Nat.eq_zero_or_pos P with hP | hP
  · rw [hP, scroll_through_index_zero, scroll_through_index_zero]
  · rw [scroll_through_index_eq es index_name P c1 hP,
      scroll_through_index_eq es index_name P c2 hP,
      yieldHits_shape, yieldHits_shape]

lemma lookup_mem {β : Type} :
    ∀ (l : List (String × β)) (k : String) (v : β),
      l.lookup k = some v → (k, v) ∈ l := by
  intro l
  induction l with
  | nil => intro k v h; simp [List.lookup] at h
  | cons hd tl ih =>
    intro k v h
    obtain ⟨a, b⟩ := hd
    rw [List.lookup_cons] at h
    cases heq : (k == a) with
    | false =>
      rw [heq] at h
      exact List.mem_cons_of_mem _ (ih k v h)
    | true =>
      rw [heq] at h
      simp only [Option.some.injEq] at h
      have hk : k = a := eq_of_beq heq
      rw [List.mem_cons]
      left
      rw [hk, h]

lemma json_loop_error_shape :
    ∀ props, (∃ out, json_properties_loop props = Except.ok out) ∨
      ∃ t, es_to_json_type_mapping.lookup t = none ∧
        json_properties_loop props =
          Except.error (PyError.UnsupportedDataTypeException
            ("Unsupported data type: " ++ t)) := by
  intro props
  induction props with
  | nil => exact Or.inl ⟨[], rfl⟩
  | cons hd tl ih =>
    obtain ⟨pn, pa⟩ := hd
    by_cases hnest : pa.has_properties
    · rcases ih with ⟨out, hout⟩ | ⟨t, ht, herr⟩
      · exact Or.inl ⟨out, by simp [json_properties_loop, hnest, hout]⟩
      · exact Or.inr ⟨t, ht, by simp [json_properties_loop, hnest, herr]⟩
    · cases hl : es_to_json_type_mapping.lookup pa.type with
      | none =>
        exact Or.inr ⟨pa.type, hl, by simp [json_properties_loop, hnest, hl]⟩
      | some jt =>
        rcases ih with ⟨out, hout⟩ | ⟨t, ht, herr⟩
        · exact Or.inl ⟨(pn, ⟨jt⟩) :: out,
            by simp [json_properties_loop, hnest, hl, hout]⟩
        · exact Or.inr ⟨t, ht,
            by simp [json_properties_loop, hnest, hl, herr]⟩

lemma json_loop_offender_not_ok :
    ∀ props (fname : String) (attrs : PropAttrs),
      (fname, attrs) ∈ props → attrs.has_properties = false →
      es_to_json_type_mapping.lookup attrs.type = none →
      ∀ out, json_properties_loop props ≠ Except.ok out := by
  intro props
  induction props with
  | nil => intro fname attrs hmem; simp at hmem
  | cons hd tl ih =>
    intro fname attrs hmem hnest hlook out
    obtain ⟨pn, pa⟩ := hd
    rw [List.mem_cons] at hmem
    rcases hmem with hmem | hmem
    · have hpa : pa = attrs := by
        have := congrArg Prod.snd hmem
        exact this.symm
      rw [hpa] at *
      simp [json_properties_loop, hnest, hlook]
    · by_cases hnest2 : pa.has_properties
      · simp only [json_properties_loop, hnest2, if_true]
        exact ih fname attrs hmem hnest hlook out
      · simp only [json_properties_loop, hnest2, if_false]
        cases hl : es_to_json_type_mapping.lookup pa.type with
        | none => simp
        | some jt =>
          cases hrest : json_properties_loop tl with
          | error e => simp
          | ok props2 =>
            exact absurd hrest (ih fname attrs hmem hnest hlook props2)

lemma json_loop_entries :
    ∀ props out, json_properties_loop props = Except.ok out →
      ∀ e ∈ out, ∃ attrs, (e.1, attrs) ∈ props ∧
        attrs.has_properties = false ∧
        es_to_json_type_mapping.lookup attrs.type = some e.2.type := by
  intro props
  induction props with
  | nil =>
    intro out hout e he
    simp only [json_properties_loop, Except.ok.injEq] at hout
    rw [← hout] at he
    simp at he
  | cons hd tl ih =>
    intro out hout e he
    obtain ⟨pn, pa⟩ := hd
    by_cases hnest : pa.has_properties
    · simp only [json_properties_loop, hnest, if_true] at hout
      obtain ⟨attrs, h1, h2, h3⟩ := ih out hout e he
      exact ⟨attrs, List.mem_cons_of_mem _ h1, h2, h3⟩
    · simp only [json_properties_loop, hnest, Bool.false_eq_true, if_false]
        at hout
      cases hl : es_to_json_type_mapping.lookup pa.type with
      | none => rw [hl] at hout; simp at hout
      | some jt =>
        rw [hl] at hout
        cases hrest : json_properties_loop tl with
        | error e2 => rw [hrest] at hout; simp at hout
        | ok props2 =>
          rw [hrest] at hout
          simp only [Except.ok.injEq] at hout
          rw [← hout] at he
          rw [List.mem_cons] at he
          rcases he with he | he
          · refine ⟨pa, ?_, by simp [hnest], ?_⟩
            · rw [List.mem_cons]
              left
              rw [he]
            · rw [he, hl]
          · obtain ⟨attrs, h1, h2, h3⟩ := ih props2 hrest e he
            exact ⟨attrs, List.mem_cons_of_mem _ h1, h2, h3⟩

lemma discover_loop_error_shape (es : Elasticsearch) :
    ∀ L, (∃ streams, discover_loop es L = Except.ok streams) ∨
      ∃ t, es_to_json_type_mapping.lookup t = none ∧
        discover_loop es L =
          Except.error (PyError.UnsupportedDataTypeException
            ("Unsupported data type: " ++ t)) := by
  intro L
  induction L with
  | nil => exact Or.inl ⟨[], rfl⟩
  | cons hd tl ih =>
    obtain ⟨index_name, d⟩ := hd
    rcases json_loop_error_shape (get_mapping_properties es index_name) with
      ⟨out, hout⟩ | ⟨t, ht, herr⟩
    · rcases ih with ⟨streams, hs⟩ | ⟨t, ht, herr⟩
      · refine Or.inl
          ⟨{ name := index_name,
             json_schema :=
               { schema_id := "http://json-schema.org/draft-07/schema#",
                 type := "object",
                 properties := out },
             supported_sync_modes := ["full_refresh"] } :: streams, ?_⟩
        simp only [discover_loop, _get_index_json_properties, hout, hs]
      · refine Or.inr ⟨t, ht, ?_⟩
        simp only [discover_loop, _get_index_json_properties, hout, herr]
    · refine Or.inr ⟨t, ht, ?_⟩
      simp only [discover_loop, _get_index_json_properties, herr]

lemma discover_loop_offender_not_ok (es : Elasticsearch) :
    ∀ L (index_name : String) (d : ESIndexData) (fname : String)
      (attrs : PropAttrs),
      (index_name, d) ∈ L → es.indices.lookup index_name = some d →
      (fname, attrs) ∈ d.props → attrs.has_properties = false →
      es_to_json_type_mapping.lookup attrs.type = none →
      ∀ streams, discover_loop es L ≠ Except.ok streams := by
  intro L
  induction L with
  | nil => intro _ _ _ _ hmem; simp at hmem
  | cons hd tl ih =>
    intro index_name d fname attrs hmem hidx hfield hnest hlook streams
    obtain ⟨n2, d2⟩ := hd
    rw [List.mem_cons] at hmem
    rcases hmem with hmem | hmem
    · have hn : n2 = index_name := congrArg Prod.fst hmem.symm
      have hprops : get_mapping_properties es n2 = d.props := by
        rw [hn]
        simp only [get_mapping_properties, hidx]
      simp only [discover_loop, _get_index_json_properties, hprops]
      cases hj : json_properties_loop d.props with
      | error e => simp
      | ok out =>
        exact absurd hj (json_loop_offender_not_ok d.props fname attrs
          hfield hnest hlook out)
    · simp only [discover_loop]
      cases hj : _get_index_json_properties es n2 with
      | error e => simp
      | ok out =>
        cases hrest : discover_loop es tl with
        | error e => simp
        | ok streams2 =>
          exact absurd hrest (ih index_name d fname attrs hmem hidx hfield
            hnest hlook streams2)

lemma discover_loop_names (es : Elasticsearch) :
    ∀ L streams, discover_loop es L = Except.ok streams →
      ∀ s ∈ streams, ∃ d, (s.name, d) ∈ L := by
  intro L
  induction L with
  | nil =>
    intro streams h s hs
    simp only [discover_loop, Except.ok.injEq] at h
    rw [← h] at hs
    simp at hs
  | cons hd tl ih =>
    intro streams h s hs
    obtain ⟨n2, d2⟩ := hd
    simp only [discover_loop] at h
    cases hj : _get_index_json_properties es n2 with
    | error e => rw [hj] at h; simp at h
    | ok out =>
      rw [hj] at h
      cases hrest : discover_loop es tl with
      | error e => rw [hrest] at h; simp at h
      | ok streams2 =>
        rw [hrest] at h
        simp only [Except.ok.injEq] at h
        rw [← h] at hs
        rw [List.mem_cons] at hs
        rcases hs with hs | hs
        · refine ⟨d2, ?_⟩
          rw [List.mem_cons]
          left
          rw [hs]
        · obtain ⟨d3, h3⟩ := ih streams2 hrest s hs
          exact ⟨d3, List.mem_cons_of_mem _ h3⟩

lemma discover_loop_props (es : Elasticsearch) :
    ∀ L streams, discover_loop es L = Except.ok streams →
      ∀ s ∈ streams,
        _get_index_json_properties es s.name =
          Except.ok s.json_schema.properties := by
  intro L
  induction L with
  | nil =>
    intro streams h s hs
    simp only [discover_loop, Except.ok.injEq] at h
    rw [← h] at hs
    simp at hs
  | cons hd tl ih =>
    intro streams h s hs
    obtain ⟨n2, d2⟩ := hd
    simp only [discover_loop] at h
    cases hj : _get_index_json_properties es n2 with
    | error e => rw [hj] at h; simp at h
    | ok out =>
      rw [hj] at h
      cases hrest : discover_loop es tl with
      | error e => rw [hrest] at h; simp at h
      | ok streams2 =>
        rw [hrest] at h
        simp only [Except.ok.injEq] at h
        rw [← h] at hs
        rw [List.mem_cons] at hs
        rcases hs with hs | hs
        · rw [hs]
          exact hj
        · exact ih streams2 hrest s hs

/-- Claim C1, amended: for every collection and every positive page size
`P`, the scrolling generator yields exactly one record message per
document of the collection, each tagged with the source collection's name
as its stream; and — when the wall clock is monotone and the read call is
made no later than the first clock reading — every emission timestamp is
no earlier than the call time rounded down to a whole second.  The claim
as stated (no earlier than the call time itself) is refuted by
the counterexample: the code truncates `datetime.now().timestamp()` to
whole seconds before scaling to milliseconds. -/
theorem scroll_yields_all_records (es : Elasticsearch)
    (index_name : String) (P : Nat) (clock : Nat → Nat) (callTime : Nat)
    (hP : 0 < P)
    (hmono : ∀ i j, i ≤ j → clock i ≤ clock j)
    (hcall : callTime ≤ clock 0) :
    (_scroll_through_index es index_name P clock).length =
      (docs_of es index_name).length ∧
    (∀ m ∈ _scroll_through_index es index_name P clock,
      m.record.stream = index_name) ∧
    (∀ m ∈ _scroll_through_index es index_name P clock,
      callTime / 1000 * 1000 ≤ m.record.emitted_at) := by
  refine ⟨?_, scroll_stream es index_name P clock, ?_⟩
  · rw [scroll_through_index_eq es index_name P clock hP, yieldHits_length]
  · intro m hm
    rw [scroll_through_index_eq es index_name P clock hP] at hm
    obtain ⟨j, _, he⟩ := yieldHits_emitted index_name clock 0 _ m hm
    rw [he]
    have h1 : clock 0 ≤ clock j := hmono 0 j (Nat.zero_le j)
    have h2 : callTime / 1000 ≤ clock j / 1000 :=
      Nat.div_le_div_right (le_trans hcall h1)
    exact Nat.mul_le_mul_right 1000 h2

/-- Concrete instantiation of `scroll_yields_all_records`: three documents
in collection "orders", page size 2, constant clock 2500 ms, call at
1600 ms. -/
theorem scroll_yields_all_records_witness :
    (0 < 2) ∧
    (_scroll_through_index ⟨true, [("orders", ⟨[], [⟨"d1"⟩, ⟨"d2"⟩, ⟨"d3"⟩]⟩)]⟩
        "orders" 2 (fun _ => 2500)).length = 3 := by
  refine ⟨by norm_num, ?_⟩
  have h := scroll_yields_all_records
    ⟨true, [("orders", ⟨[], [⟨"d1"⟩, ⟨"d2"⟩, ⟨"d3"⟩]⟩)]⟩ "orders" 2
    (fun _ => 2500) 1600 (by norm_num) (fun i j _ => le_refl 2500)
    (by norm_num)
  rw [h.1]
  rfl

/-- Claim C1 as stated is false at a concrete input: the read call is made
at epoch millisecond 1500, every wall-clock reading is 1700 (so the clock
never runs earlier than the call), yet the single record's `emitted_at`
is 1000 < 1500, because `int(datetime.now().timestamp()) * 1000` truncates
to whole seconds. -/
theorem scroll_timestamp_precedes_call_cex :
    (1500 ≤ (fun _ : Nat => 1700) 0) ∧
    ((_scroll_through_index ⟨true, [("orders", ⟨[], [⟨"d1"⟩]⟩)]⟩ "orders" 1
        (fun _ => 1700)).map (fun m => m.record.emitted_at) = [1000]) ∧
    ((1000 : Nat) < 1500) := by
  refine ⟨by norm_num, ?_, by norm_num⟩
  rw [scroll_through_index_eq _ _ _ _ (by norm_num)]
  rfl

/-- Claim C9: every record the streamer emits carries an `emitted_at` that
is an exact multiple of 1000 (the wall clock is truncated to whole seconds
before being scaled to milliseconds), and against the clock reading taken
for it (the true emission instant) the timestamp is never later and
precedes it by strictly less than one second. -/
theorem emitted_at_second_granularity (es : Elasticsearch)
    (index_name : String) (P : Nat) (clock : Nat → Nat)
    (m : AirbyteMessage)
    (hm : m ∈ _scroll_through_index es index_name P clock) :
    1000 ∣ m.record.emitted_at ∧
    ∃ j, m.record.emitted_at = clock j / 1000 * 1000 ∧
      m.record.emitted_at ≤ clock j ∧
      clock j < m.record.emitted_at + 1000 := by
  obtain ⟨j, he⟩ := scroll_emitted es index_name P clock m hm
  refine ⟨?_, j, he, ?_, ?_⟩
  · rw [he]
    exact Dvd.intro_left _ rfl
  · rw [he]
    exact Nat.div_mul_le_self _ _
  · rw [he]
    omega

/-- Concrete instantiation of `emitted_at_second_granularity`: a clock
reading of 2345 ms yields a record stamped 2000. -/
theorem emitted_at_second_granularity_witness :
    ((⟨MsgType.RECORD, ⟨"idx", "doc", 2000⟩⟩ : AirbyteMessage) ∈
      _scroll_through_index ⟨true, [("idx", ⟨[], [⟨"doc"⟩]⟩)]⟩ "idx" 1
        (fun _ => 2345)) ∧
    (1000 ∣ (2000 : Nat)) := by
  have hm : (⟨MsgType.RECORD, ⟨"idx", "doc", 2000⟩⟩ : AirbyteMessage) ∈
      _scroll_through_index ⟨true, [("idx", ⟨[], [⟨"doc"⟩]⟩)]⟩ "idx" 1
        (fun _ => 2345) := by
    rw [scroll_through_index_eq _ _ _ _ (by norm_num)]
    simp [yieldHits, docs_of]
  exact ⟨hm,
    (emitted_at_second_granularity _ _ _ _ _ hm).1⟩

/-- Claim C3, amended: when the configuration contains the host, username
and password keys, the connectivity check returns a two-valued status —
`SUCCEEDED` when the ping succeeds and `FAILED` with a message when it
fails — and no exception escapes; but when a required configuration key is
missing, the client construction raises a `KeyError` that propagates out
of `check` (refuting the claim's "no exception ever propagates"): the code
has no exception handler. -/
theorem check_reports_status_when_config_complete (es : Elasticsearch)
    (config : Config)
    (hhost : config.host.isSome = true)
    (huser : config.username.isSome = true)
    (hpass : config.password.isSome = true) :
    check es config =
      (if es.ping then Except.ok ⟨Status.SUCCEEDED, none⟩
       else Except.ok ⟨Status.FAILED, some "Connection failed"⟩) := by
  obtain ⟨h, hh⟩ := Option.isSome_iff_exists.mp hhost
  obtain ⟨u, hu⟩ := Option.isSome_iff_exists.mp huser
  obtain ⟨p, hp⟩ := Option.isSome_iff_exists.mp hpass
  simp only [check, _get_es_client, hh, hu, hp]
  cases hping : es.ping <;> simp

/-- Concrete instantiation of `check_reports_status_when_config_complete`:
a complete configuration against an engine whose ping fails. -/
theorem check_reports_status_witness :
    check ⟨false, []⟩ ⟨some "h", some "u", some "p", some 10⟩ =
      Except.ok ⟨Status.FAILED, some "Connection failed"⟩ := by
  rw [check_reports_status_when_config_complete
    ⟨false, []⟩ ⟨some "h", some "u", some "p", some 10⟩ rfl rfl rfl]
  simp

/-- Claim C3 as stated is false at a concrete input: with a configuration
missing the "host" key, `check` does not return a FAILED status — the
`KeyError` raised by `config["host"]` inside the client construction
propagates to the caller. -/
theorem check_keyerror_propagates_cex :
    check ⟨true, []⟩ ⟨none, none, none, none⟩ =
      Except.error (PyError.KeyError "host") := rfl

/-- Claim C2: if any non-system collection has a non-nested field whose
declared primitive type is absent from the static type table, `discover`
returns the dedicated `UnsupportedDataTypeException` whose message names
an offending (unmapped) type, and returns no catalog at all — the error
aborts the whole operation, so no partial schema is produced for any
collection. -/
theorem discover_unsupported_type_aborts (es : Elasticsearch)
    (config : Config) (index_name : String) (d : ESIndexData)
    (fname : String) (attrs : PropAttrs)
    (hhost : config.host.isSome = true)
    (huser : config.username.isSome = true)
    (hpass : config.password.isSome = true)
    (hidx : es.indices.lookup index_name = some d)
    (hsys : ¬ index_name ∈ system_indices)
    (hfield : (fname, attrs) ∈ d.props)
    (hnest : attrs.has_properties = false)
    (hlook : es_to_json_type_mapping.lookup attrs.type = none) :
    ∃ t, es_to_json_type_mapping.lookup t = none ∧
      discover es config =
        Except.error (PyError.UnsupportedDataTypeException
          ("Unsupported data type: " ++ t)) := by
  obtain ⟨h, hh⟩ := Option.isSome_iff_exists.mp hhost
  obtain ⟨u, hu⟩ := Option.isSome_iff_exists.mp huser
  obtain ⟨p, hp⟩ := Option.isSome_iff_exists.mp hpass
  have hc : _get_es_client es config = Except.ok es := by
    simp [_get_es_client, hh, hu, hp]
  have hmem : (index_name, d) ∈ _get_indices es := by
    apply List.mem_filter.mpr
    refine ⟨lookup_mem es.indices index_name d hidx, ?_⟩
    simp only [Bool.not_eq_true']
    cases hcc : system_indices.contains index_name with
    | false => rfl
    | true =>
      exact absurd (by simpa using hcc) hsys
  rcases discover_loop_error_shape es (_get_indices es) with
    ⟨streams, hs⟩ | ⟨t, ht, herr⟩
  · exact absurd hs (discover_loop_offender_not_ok es (_get_indices es)
      index_name d fname attrs hmem hidx hfield hnest hlook streams)
  · refine ⟨t, ht, ?_⟩
    simp only [discover, hc, herr]

/-- Concrete instantiation of `discover_unsupported_type_aborts`: an index
with a field of unmapped type "ip". -/
theorem discover_unsupported_type_aborts_witness :
    (es_to_json_type_mapping.lookup "ip" = none) ∧
    (∃ t, es_to_json_type_mapping.lookup t = none ∧
      discover ⟨true, [("logs", ⟨[("addr", ⟨false, "ip"⟩)], []⟩)]⟩
          ⟨some "h", some "u", some "p", some 10⟩ =
        Except.error (PyError.UnsupportedDataTypeException
          ("Unsupported data type: " ++ t))) := by
  refine ⟨by decide, ?_⟩
  exact discover_unsupported_type_aborts
    ⟨true, [("logs", ⟨[("addr", ⟨false, "ip"⟩)], []⟩)]⟩
    ⟨some "h", some "u", some "p", some 10⟩ "logs"
    ⟨[("addr", ⟨false, "ip"⟩)], []⟩ "addr" ⟨false, "ip"⟩
    rfl rfl rfl (by decide) (by decide) (by decide) rfl (by decide)

/-- Claim C4: with a non-empty configured catalog, `read` returns the
record generator of the first configured collection only — the `for` loop
`return`s on its first iteration, so dropping every later stream from the
catalog does not change the result, and every yielded record is tagged
with the first collection's name. -/
theorem read_consumes_only_first_stream {σ : Type} (es : Elasticsearch)
    (config : Config) (cs : ConfiguredAirbyteStream)
    (rest : List ConfiguredAirbyteStream) (state : σ) (clock : Nat → Nat)
    (msgs : List AirbyteMessage)
    (hok : read es config ⟨cs :: rest⟩ state clock =
      Except.ok (some msgs)) :
    read es config ⟨cs :: rest⟩ state clock =
      read es config ⟨[cs]⟩ state clock ∧
    ∀ m ∈ msgs, m.record.stream = cs.stream.name := by
  refine ⟨rfl, ?_⟩
  intro m hm
  cases hc : _get_es_client es config with
  | error e => simp [read, hc] at hok
  | ok client =>
    cases hps : config.page_size with
    | none => simp [read, hc, hps] at hok
    | some ps =>
      simp only [read, hc, hps, Except.ok.injEq, Option.some.injEq] at hok
      rw [← hok] at hm
      exact scroll_stream client cs.stream.name ps clock m hm

/-- Concrete instantiation of `read_consumes_only_first_stream`: a catalog
requesting collections "a" and "b"; only "a" is read. -/
theorem read_consumes_only_first_stream_witness :
    read ⟨true, [("a", ⟨[], [⟨"d"⟩]⟩)]⟩ ⟨some "h", some "u", some "p", some 1⟩
        ⟨[⟨⟨"a", ⟨"s", "object", []⟩, ["full_refresh"]⟩⟩,
          ⟨⟨"b", ⟨"s", "object", []⟩, ["full_refresh"]⟩⟩]⟩ (0 : Nat)
        (fun _ => 2345) =
      read ⟨true, [("a", ⟨[], [⟨"d"⟩]⟩)]⟩ ⟨some "h", some "u", some "p", some 1⟩
        ⟨[⟨⟨"a", ⟨"s", "object", []⟩, ["full_refresh"]⟩⟩]⟩ (0 : Nat)
        (fun _ => 2345) ∧
    (⟨MsgType.RECORD, ⟨"a", "d", 2000⟩⟩ : AirbyteMessage).record.stream =
      "a" := by
  have hok : read (⟨true, [("a", ⟨[], [⟨"d"⟩]⟩)]⟩ : Elasticsearch)
      ⟨some "h", some "u", some "p", some 1⟩
      ⟨[⟨⟨"a", ⟨"s", "object", []⟩, ["full_refresh"]⟩⟩,
        ⟨⟨"b", ⟨"s", "object", []⟩, ["full_refresh"]⟩⟩]⟩ (0 : Nat)
      (fun _ => 2345) =
      Except.ok (some [⟨MsgType.RECORD, ⟨"a", "d", 2000⟩⟩]) := by
    simp only [read, _get_es_client]
    rw [scroll_through_index_eq _ _ _ _ (by norm_num)]
    rfl
  have h := read_consumes_only_first_stream _ _ _ _ _ _ _ hok
  exact ⟨h.1, h.2 _ (by simp)⟩

/-- Claim C5: the catalog produced by a successful `discover` never
contains either denylisted system collection, whatever indices the remote
engine reports. -/
theorem discover_excludes_system_indices (es : Elasticsearch)
    (config : Config) (cat : AirbyteCatalog)
    (hok : discover es config = Except.ok cat) :
    ∀ s ∈ cat.streams,
      s.name ≠ ".kibana_1" ∧ s.name ≠ ".opendistro_security" := by
  intro s hs
  cases hc : _get_es_client es config with
  | error e => simp [discover, hc] at hok
  | ok client =>
    cases hd : discover_loop client (_get_indices client) with
    | error e => simp [discover, hc, hd] at hok
    | ok streams =>
      simp only [discover, hc, hd, Except.ok.injEq] at hok
      rw [← hok] at hs
      obtain ⟨d, hmem⟩ := discover_loop_names client _ streams hd s hs
      have hf := List.mem_filter.mp hmem
      have hcond := hf.2
      simp only [Bool.not_eq_true'] at hcond
      have hnm : ¬ s.name ∈ system_indices := by
        intro habs
        have hct : system_indices.contains s.name = true :=
          List.contains_iff_exists_mem_beq.mpr ⟨s.name, habs, by simp⟩
        rw [hcond] at hct
        exact Bool.false_ne_true hct
      constructor
      · intro heq
        exact hnm (by rw [heq]; decide)
      · intro heq
        exact hnm (by rw [heq]; decide)

/-- Concrete instantiation of `discover_excludes_system_indices`: the
engine reports ".kibana_1" and a user index; only the user index is
discovered. -/
theorem discover_excludes_system_indices_witness :
    (discover ⟨true, [(".kibana_1", ⟨[], []⟩), ("users", ⟨[], []⟩)]⟩
        ⟨some "h", some "u", some "p", some 10⟩ =
      Except.ok ⟨[⟨"users",
        ⟨"http://json-schema.org/draft-07/schema#", "object", []⟩,
        ["full_refresh"]⟩]⟩) ∧
    ("users" ≠ ".kibana_1" ∧ "users" ≠ ".opendistro_security") := by
  have hok : discover
      (⟨true, [(".kibana_1", ⟨[], []⟩), ("users", ⟨[], []⟩)]⟩ :
        Elasticsearch)
      ⟨some "h", some "u", some "p", some 10⟩ =
      Except.ok ⟨[⟨"users",
        ⟨"http://json-schema.org/draft-07/schema#", "object", []⟩,
        ["full_refresh"]⟩]⟩ := rfl
  refine ⟨hok, ?_⟩
  exact discover_excludes_system_indices _ _ _ hok
    ⟨"users", ⟨"http://json-schema.org/draft-07/schema#", "object", []⟩,
      ["full_refresh"]⟩ (by simp)

/-- Claim C6: every entry of the static type table maps to one of the four
documented generic types; a field accepted by discovery is one whose
declared type the table maps to exactly the json type recorded in the
schema; hence every field type in any successfully discovered schema is
one of boolean, string, integer, number. -/
theorem discover_types_match_static_table :
    (∀ p ∈ es_to_json_type_mapping,
      p.2 = "boolean" ∨ p.2 = "string" ∨ p.2 = "integer" ∨
        p.2 = "number") ∧
    (∀ props out, json_properties_loop props = Except.ok out →
      ∀ e ∈ out, ∃ attrs, (e.1, attrs) ∈ props ∧
        attrs.has_properties = false ∧
        es_to_json_type_mapping.lookup attrs.type = some e.2.type) ∧
    (∀ es config cat, discover es config = Except.ok cat →
      ∀ s ∈ cat.streams, ∀ e ∈ s.json_schema.properties,
        e.2.type = "boolean" ∨ e.2.type = "string" ∨
          e.2.type = "integer" ∨ e.2.type = "number") := by
  refine ⟨by decide, json_loop_entries, ?_⟩
  intro es config cat hok s hs e he
  cases hc : _get_es_client es config with
  | error e2 => simp [discover, hc] at hok
  | ok client =>
    cases hd : discover_loop client (_get_indices client) with
    | error e2 => simp [discover, hc, hd] at hok
    | ok streams =>
      simp only [discover, hc, hd, Except.ok.injEq] at hok
      rw [← hok] at hs
      have hp := discover_loop_props client _ streams hd s hs
      obtain ⟨attrs, _, _, hlook⟩ :=
        json_loop_entries _ _ hp e he
      have hmem := lookup_mem es_to_json_type_mapping attrs.type e.2.type hlook
      have hall : ∀ p ∈ es_to_json_type_mapping,
          p.2 = "boolean" ∨ p.2 = "string" ∨ p.2 = "integer" ∨
            p.2 = "number" := by decide
      exact hall (attrs.type, e.2.type) hmem

/-- Concrete instantiation of `discover_types_match_static_table`: a field
of remote type "long" is discovered with json type "integer". -/
theorem discover_types_match_static_table_witness :
    (discover ⟨true, [("i", ⟨[("f", ⟨false, "long"⟩)], []⟩)]⟩
        ⟨some "h", some "u", some "p", some 10⟩ =
      Except.ok ⟨[⟨"i",
        ⟨"http://json-schema.org/draft-07/schema#", "object",
          [("f", ⟨"integer"⟩)]⟩,
        ["full_refresh"]⟩]⟩) ∧
    ("integer" = "boolean" ∨ "integer" = "string" ∨
      "integer" = "integer" ∨ "integer" = "number") := by
  have hok : discover
      (⟨true, [("i", ⟨[("f", ⟨false, "long"⟩)], []⟩)]⟩ : Elasticsearch)
      ⟨some "h", some "u", some "p", some 10⟩ =
      Except.ok ⟨[⟨"i",
        ⟨"http://json-schema.org/draft-07/schema#", "object",
          [("f", ⟨"integer"⟩)]⟩,
        ["full_refresh"]⟩]⟩ := rfl
  refine ⟨hok, ?_⟩
  exact discover_types_match_static_table.2.2 _ _ _ hok
    ⟨"i", ⟨"http://json-schema.org/draft-07/schema#", "object",
      [("f", ⟨"integer"⟩)]⟩, ["full_refresh"]⟩ (by simp)
    ("f", ⟨"integer"⟩) (by simp)

/-- Claim C7: a field whose attributes contain a nested sub-mapping (a
"properties" key) is simply omitted by the schema-inference loop: inserting
such a field anywhere in an index's property list leaves the result — and
in particular the success or failure of discovery and every other field's
schema — unchanged. -/
theorem nested_field_skipped_without_error
    (props1 props2 : List (String × PropAttrs)) (fname : String)
    (attrs : PropAttrs) (hnest : attrs.has_properties = true) :
    json_properties_loop (props1 ++ (fname, attrs) :: props2) =
      json_properties_loop (props1 ++ props2) := by
  induction props1 with
  | nil => simp [json_properties_loop, hnest]
  | cons hd tl ih =>
    obtain ⟨pn, pa⟩ := hd
    simp only [List.cons_append, json_properties_loop, List.append_eq]
    rw [ih]

/-- Concrete instantiation of `nested_field_skipped_without_error`:
a nested field "n" between two flat fields is dropped without error. -/
theorem nested_field_skipped_witness :
    ((⟨true, "x"⟩ : PropAttrs).has_properties = true) ∧
    (json_properties_loop
        [("a", ⟨false, "text"⟩), ("n", ⟨true, "x"⟩), ("b", ⟨false, "long"⟩)] =
      json_properties_loop [("a", ⟨false, "text"⟩), ("b", ⟨false, "long"⟩)]) :=
  ⟨rfl, nested_field_skipped_without_error [("a", ⟨false, "text"⟩)]
    [("b", ⟨false, "long"⟩)] "n" ⟨true, "x"⟩ rfl⟩

/-- Claim C8: the incoming state argument is never consulted by `read`, so
two invocations with identical configuration and catalog against the same
engine produce the same sequence of records — same order, count, stream
tags and document bodies — for any two state values (and any two wall
clocks; only the clock-dependent `emitted_at` field can differ, which is
why the comparison projects each record to its stream and data). -/
theorem read_ignores_state_argument {σ1 σ2 : Type} (es : Elasticsearch)
    (config : Config) (catalog : ConfiguredAirbyteCatalog) (s1 : σ1)
    (s2 : σ2) (c1 c2 : Nat → Nat) :
    Except.map (Option.map (List.map recordShape))
        (read es config catalog s1 c1) =
      Except.map (Option.map (List.map recordShape))
        (read es config catalog s2 c2) := by
  cases hc : _get_es_client es config with
  | error e => simp [read, hc]
  | ok client =>
    cases hcat : catalog.streams with
    | nil => simp [read, hc, hcat]
    | cons cs rest =>
      cases hps : config.page_size with
      | none => simp [read, hc, hcat, hps]
      | some ps =>
        simp only [read, hc, hcat, hps, Except.map, Option.map]
        rw [scroll_shape client cs.stream.name ps c1 c2]

/-- Concrete instantiation of `read_ignores_state_argument`: a string
state against a numeric state, with two different clocks. -/
theorem read_ignores_state_argument_witness :
    Except.map (Option.map (List.map recordShape))
        (read ⟨true, [("a", ⟨[], [⟨"d"⟩]⟩)]⟩
          ⟨some "h", some "u", some "p", some 1⟩
          ⟨[⟨⟨"a", ⟨"s", "object", []⟩, ["full_refresh"]⟩⟩]⟩
          "saved-state" (fun _ => 1700)) =
      Except.map (Option.map (List.map recordShape))
        (read ⟨true, [("a", ⟨[], [⟨"d"⟩]⟩)]⟩
          ⟨some "h", some "u", some "p", some 1⟩
          ⟨[⟨⟨"a", ⟨"s", "object", []⟩, ["full_refresh"]⟩⟩]⟩
          (42 : Nat) (fun _ => 9999)) :=
  read_ignores_state_argument _ _ _ "saved-state" (42 : Nat)
    (fun _ => 1700) (fun _ => 9999)

/-- Claim C10: with a configured catalog containing zero streams (and a
configuration whose required keys are present, so the client is built),
`read` falls through its `for` loop and returns Python `None` — not a
generator, not even an empty sequence of messages. -/
theorem read_empty_catalog_returns_none {σ : Type} (es : Elasticsearch)
    (config : Config) (state : σ) (clock : Nat → Nat)
    (hhost : config.host.isSome = true)
    (huser : config.username.isSome = true)
    (hpass : config.password.isSome = true) :
    read es config ⟨[]⟩ state clock = Except.ok none ∧
    ∀ msgs : List AirbyteMessage,
      read es config ⟨[]⟩ state clock ≠ Except.ok (some msgs) := by
  obtain ⟨h, hh⟩ := Option.isSome_iff_exists.mp hhost
  obtain ⟨u, hu⟩ := Option.isSome_iff_exists.mp huser
  obtain ⟨p, hp⟩ := Option.isSome_iff_exists.mp hpass
  have hnone : read es config ⟨[]⟩ state clock = Except.ok none := by
    simp [read, _get_es_client, hh, hu, hp]
  refine ⟨hnone, fun msgs habs => ?_⟩
  rw [hnone] at habs
  simp at habs

/-- Concrete instantiation of `read_empty_catalog_returns_none`. -/
theorem read_empty_catalog_returns_none_witness :
    read ⟨true, [("a", ⟨[], [⟨"d"⟩]⟩)]⟩
        ⟨some "h", some "u", some "p", some 1⟩ ⟨[]⟩ (0 : Nat)
        (fun _ => 1700) = Except.ok none :=
  (read_empty_catalog_returns_none ⟨true, [("a", ⟨[], [⟨"d"⟩]⟩)]⟩
    ⟨some "h", some "u", some "p", some 1⟩ (0 : Nat) (fun _ => 1700)
    rfl rfl rfl).1

end SourceElasticsearch
